import Mathlib

/-!
Shallow embedding of `src/vmm/src/vmm_config/net.rs`: the network-interface
registry (`NetBuilder`), its reconciliation operation (`build` together with
`create_net`), configuration snapshots (`configs`) and the error display
formatting.  External collaborators (MAC addresses, rate limiters, the
tap-backed device factory) are modelled from the spec and kept as explicit
oracle parameters where the source consumes them fallibly.
-/

/-- Modelled from the spec: a guest MAC address, an "optional 6-byte hardware
address" (`utils::net::mac::MacAddr`, an external collaborator type). -/
structure MacAddr where
  b0 : Nat
  b1 : Nat
  b2 : Nat
  b3 : Nat
  b4 : Nat
  b5 : Nat
deriving DecidableEq, Repr

/-- Modelled from the spec: lower-case hexadecimal rendering of one nibble,
part of the display form of the external `MacAddr` type. -/
def hexChar (n : Nat) : Char :=
  if n < 10 then Char.ofNat (48 + n) else Char.ofNat (87 + n)

/-- Modelled from the spec: two-digit hexadecimal rendering of one byte. -/
def byteHex (b : Nat) : String :=
  String.mk [hexChar (b / 16 % 16), hexChar (b % 16)]

/-- Modelled from the spec: the colon-separated rendering of a MAC address,
the `to_string` the source calls when reporting `GuestMacAddressInUse`. -/
def MacAddr.toString (m : MacAddr) : String :=
  byteHex m.b0 ++ ":" ++ byteHex m.b1 ++ ":" ++ byteHex m.b2 ++ ":" ++
    byteHex m.b3 ++ ":" ++ byteHex m.b4 ++ ":" ++ byteHex m.b5

/-- Modelled from the spec: the declarative description of one token bucket
inside a rate-limiter descriptor (external collaborator data). -/
structure TokenBucketConfig where
  size : Nat
  refill_time : Nat
deriving DecidableEq, Repr

/-- Modelled from the spec: `RateLimiterConfig` (external, consumed only), a
declarative rate-limit description with optional bandwidth and ops buckets;
an empty description denotes the unlimited limiter. -/
structure RateLimiterConfig where
  bandwidth : Option TokenBucketConfig
  ops : Option TokenBucketConfig
deriving DecidableEq, Repr

/-- Modelled from the spec: a constructed rate limiter, observable through
its configuration snapshot (bandwidth and ops buckets). -/
structure RateLimiter where
  bandwidth : Option TokenBucketConfig
  ops : Option TokenBucketConfig
deriving DecidableEq, Repr

/-- Modelled from the spec: the default (unlimited) rate limiter used when a
descriptor is absent. -/
def RateLimiter.default : RateLimiter := { bandwidth := none, ops := none }

/-- Modelled from the spec: the configuration snapshot of a live rate
limiter, the `From` conversion from `&RateLimiter` to `RateLimiterConfig`. -/
def RateLimiterConfig.ofRateLimiter (rl : RateLimiter) : RateLimiterConfig :=
  { bandwidth := rl.bandwidth, ops := rl.ops }

/-- Modelled from the spec: `RateLimiterConfig::into_option`, representing a
default/empty descriptor as absent. -/
def RateLimiterConfig.into_option (c : RateLimiterConfig) : Option RateLimiterConfig :=
  if c.bandwidth.isNone && c.ops.isNone then none else some c

/-- Modelled from the spec: a collaborator error from the virtio net device
factory (`devices::virtio::net::Error`), carried as the free text of its
debug rendering, which may contain quote characters. -/
structure DevicesNetError where
  debugText : String
deriving DecidableEq, Repr

/-- Modelled from the spec: a tap-device collaborator error (`TapError`),
carried as the free text of its debug rendering, which may contain quote
characters. -/
structure TapError where
  debugText : String
deriving DecidableEq, Repr

/-- Modelled from the spec: an I/O error from rate-limiter construction,
carried as its display text. -/
structure IoError where
  displayText : String
deriving DecidableEq, Repr

/-- Modelled from the spec: a VMM-level error from the patch-update path,
carried as its display text. -/
structure VmmError where
  displayText : String
deriving DecidableEq, Repr

/-- Errors of type `NetworkInterfaceError`, associated with `NetworkInterfaceConfig`. -/
inductive NetworkInterfaceError where
  | createNetworkDevice (e : DevicesNetError)
  | createRateLimiter (e : IoError)
  | guestMacAddressInUse (mac_addr : String)
  | deviceUpdate (e : VmmError)
  | openTap (e : TapError)
deriving DecidableEq, Repr

/-- The quote character (code point 34) that the source strips from the tap
error text before embedding it in a display string. -/
def quoteChar : Char := Char.ofNat 34

/-- The `replace` call of the source's `OpenTap` display arm: remove every
double-quote character from the string. -/
def stripQuotes (s : String) : String :=
  String.mk (s.data.filter (fun c => c != quoteChar))

/-- The `fmt::Display` implementation for `NetworkInterfaceError`. -/
def NetworkInterfaceError.display : NetworkInterfaceError → String
  | NetworkInterfaceError.createNetworkDevice e =>
      "Could not create Network Device: " ++ e.debugText
  | NetworkInterfaceError.createRateLimiter e =>
      "Cannot create RateLimiter: " ++ e.displayText
  | NetworkInterfaceError.guestMacAddressInUse mac_addr =>
      "The guest MAC address " ++ mac_addr ++ " is already in use."
  | NetworkInterfaceError.deviceUpdate e =>
      "Error during interface update (patch): " ++ e.displayText
  | NetworkInterfaceError.openTap e =>
      "Cannot open TAP device. Invalid name/permissions. " ++ stripQuotes e.debugText

/-- Source struct `NetworkInterfaceConfig`: the strongly typed equivalent of the json body
of net iface requests. -/
structure NetworkInterfaceConfig where
  iface_id : String
  host_dev_name : String
  guest_mac : Option MacAddr
  rx_rate_limiter : Option RateLimiterConfig
  tx_rate_limiter : Option RateLimiterConfig
deriving DecidableEq, Repr

/-- Modelled from the spec: the external virtio net device
(`devices::virtio::Net`), observable through its read accessors `id`,
`iface_name`, `guest_mac`, `rx_rate_limiter` and `tx_rate_limiter`. -/
structure Net where
  id : String
  iface_name : String
  guest_mac : Option MacAddr
  rx_rate_limiter : RateLimiter
  tx_rate_limiter : RateLimiter
deriving DecidableEq, Repr

/-- Modelled from the spec: the external NetDevice factory
`Net::new_with_tap`.  Opening the host tap device may fail depending on the
host environment, modelled by the `tapRes` oracle on the host device name;
on success the device reports exactly the arguments it was built from. -/
def Net.new_with_tap (tapRes : String → Option DevicesNetError)
    (id iface_name : String) (guest_mac : Option MacAddr)
    (rx tx : RateLimiter) : Except DevicesNetError Net :=
  match tapRes iface_name with
  | some e => Except.error e
  | none =>
      Except.ok { id := id, iface_name := iface_name, guest_mac := guest_mac,
                  rx_rate_limiter := rx, tx_rate_limiter := tx }

/-- The `From` conversion from `&Net` to `NetworkInterfaceConfig`: the
configuration snapshot of a live device. -/
def NetworkInterfaceConfig.ofNet (net : Net) : NetworkInterfaceConfig :=
  let rx_rl : RateLimiterConfig := RateLimiterConfig.ofRateLimiter net.rx_rate_limiter
  let tx_rl : RateLimiterConfig := RateLimiterConfig.ofRateLimiter net.tx_rate_limiter
  { iface_id := net.id
    host_dev_name := net.iface_name
    guest_mac := net.guest_mac
    rx_rate_limiter := rx_rl.into_option
    tx_rate_limiter := tx_rl.into_option }

/-- Source struct `NetBuilder`: the device registry, an ordered list of built net devices.
The `Arc<Mutex<_>>` sharing wrapper is erased in this single-threaded
embedding; every lock acquisition in the source succeeds. -/
structure NetBuilder where
  net_devices : List Net
deriving DecidableEq, Repr

/-- Source constructor `NetBuilder::new`. -/
def NetBuilder.new : NetBuilder := { net_devices := [] }

/-- Source method `NetBuilder::add_device`. -/
def NetBuilder.add_device (b : NetBuilder) (device : Net) : NetBuilder :=
  { net_devices := b.net_devices ++ [device] }

/-- Source operation `Vec::swap_remove(i)`: remove the element at index `i`, replacing it by
the last element.  Callers in the source guarantee `i < l.length`; on an
out-of-range index (where Rust panics) the result is irrelevant and never
reached by the definitions below. -/
def swapRemove {α : Type} (l : List α) (i : Nat) : List α :=
  match l.getLast? with
  | none => l
  | some a => if i + 1 = l.length then l.dropLast else (l.dropLast).set i a

/-- The `mac_conflict` closure inside `NetBuilder::build`: some other device
has the same (present) MAC but a different interface id. -/
def macConflict (netif_config : NetworkInterfaceConfig) (net : Net) : Bool :=
  netif_config.guest_mac.isSome &&
    netif_config.guest_mac == net.guest_mac &&
    netif_config.iface_id != net.id

/-- Source operation `Option::transpose` on an optional fallible result. -/
def optTranspose {ε α : Type} : Option (Except ε α) → Except ε (Option α)
  | none => Except.ok none
  | some (Except.error e) => Except.error e
  | some (Except.ok v) => Except.ok (some v)

/-- Source method `NetBuilder::create_net`: resolve the optional rate-limiter descriptors
(`tryRL` is the external fallible conversion from `RateLimiterConfig` to a
live `RateLimiter`), then invoke the device factory; descriptor failure is
`CreateRateLimiter`, factory failure is `CreateNetworkDevice`. -/
def NetBuilder.create_net (tapRes : String → Option DevicesNetError)
    (tryRL : RateLimiterConfig → Except IoError RateLimiter)
    (cfg : NetworkInterfaceConfig) : Except NetworkInterfaceError Net :=
  match optTranspose (cfg.rx_rate_limiter.map tryRL) with
  | Except.error e => Except.error (NetworkInterfaceError.createRateLimiter e)
  | Except.ok rx_rate_limiter =>
    match optTranspose (cfg.tx_rate_limiter.map tryRL) with
    | Except.error e => Except.error (NetworkInterfaceError.createRateLimiter e)
    | Except.ok tx_rate_limiter =>
      match Net.new_with_tap tapRes cfg.iface_id cfg.host_dev_name cfg.guest_mac
          (rx_rate_limiter.getD RateLimiter.default)
          (tx_rate_limiter.getD RateLimiter.default) with
      | Except.error e => Except.error (NetworkInterfaceError.createNetworkDevice e)
      | Except.ok net => Except.ok net

/-- Source method `NetBuilder::build`.  The returned value pairs the updated registry with
the call's result; `none` models the `unwrap` in the `GuestMacAddressInUse`
branch aborting, which would require the conflict to have fired with an
absent candidate MAC. -/
def NetBuilder.build (tapRes : String → Option DevicesNetError)
    (tryRL : RateLimiterConfig → Except IoError RateLimiter)
    (b : NetBuilder) (netif_config : NetworkInterfaceConfig) :
    Option (NetBuilder × Except NetworkInterfaceError Net) :=
  if b.net_devices.any (macConflict netif_config) then
    match netif_config.guest_mac with
    | some mac => some (b, Except.error
        (NetworkInterfaceError.guestMacAddressInUse mac.toString))
    | none => none
  else
    let devs : List Net :=
      match b.net_devices.findIdx? (fun net => net.id == netif_config.iface_id) with
      | some index => swapRemove b.net_devices index
      | none => b.net_devices
    match NetBuilder.create_net tapRes tryRL netif_config with
    | Except.error e => some ({ net_devices := devs }, Except.error e)
    | Except.ok net => some ({ net_devices := devs ++ [net] }, Except.ok net)

/-- Source method `NetBuilder::configs`: the configuration snapshot of every device, in
registry order. -/
def NetBuilder.configs (b : NetBuilder) : List NetworkInterfaceConfig :=
  b.net_devices.map NetworkInterfaceConfig.ofNet

/-- At most one element per interface id: distinct positions of the list
hold distinct ids. -/
def idsUnique (l : List Net) : Prop :=
  ∀ (j k : Nat) (hj : j < l.length) (hk : k < l.length),
    (l.get ⟨j, hj⟩).id = (l.get ⟨k, hk⟩).id → j = k

/-- Registry invariant from the spec's data model: at most one device per
interface id (distinct registry positions hold distinct ids). -/
def NetBuilder.uniqueIds (b : NetBuilder) : Prop := idsUnique b.net_devices

/-- Registry invariant from the spec's data model: at most one device per
distinct non-empty guest MAC. -/
def NetBuilder.uniqueMacs (b : NetBuilder) : Prop :=
  ∀ (j k : Nat) (hj : j < b.net_devices.length) (hk : k < b.net_devices.length)
    (m : MacAddr),
    (b.net_devices.get ⟨j, hj⟩).guest_mac = some m →
    (b.net_devices.get ⟨k, hk⟩).guest_mac = some m → j = k

/-! Helper lemmas about `swapRemove` and `findIdx?`. -/

theorem swapRemove_eq {α : Type} {l : List α} (hne : l ≠ []) (i : Nat) :
    swapRemove l i =
      if i + 1 = l.length then l.dropLast else (l.dropLast).set i (l.getLast hne) := by
  unfold swapRemove
  rw [List.getLast?_eq_getLast l hne]

theorem swapRemove_length {α : Type} {l : List α} {i : Nat} (h : i < l.length) :
    (swapRemove l i).length = l.length - 1 := by
  have hne : l ≠ [] := List.ne_nil_of_length_pos (by omega)
  rw [swapRemove_eq hne]
  by_cases hc : i + 1 = l.length
  · simp [hc]
  · simp [hc]

theorem swapRemove_getElem? {α : Type} {l : List α} {i : Nat} (hi : i < l.length)
    {j : Nat} (hj : j < l.length - 1) :
    (swapRemove l i)[j]? = if j = i then l[l.length - 1]? else l[j]? := by
  have hne : l ≠ [] := List.ne_nil_of_length_pos (by omega)
  rw [swapRemove_eq hne]
  by_cases hc : i + 1 = l.length
  · have hji : j ≠ i := by omega
    rw [if_pos hc, List.getElem?_dropLast, if_pos hj, if_neg hji]
  · simp only [if_neg hc, List.getElem?_set, List.length_dropLast,
      List.getElem?_dropLast]
    by_cases hji : i = j
    · subst hji
      have hilt : i < l.length - 1 := by omega
      rw [if_pos rfl, if_pos hilt, if_pos rfl,
        List.getElem?_eq_getElem (by omega : l.length - 1 < l.length),
        List.getLast_eq_getElem l hne]
    · rw [if_neg hji, if_pos hj, if_neg (fun h => hji h.symm)]

theorem mem_swapRemove {α : Type} {l : List α} {i : Nat} (hi : i < l.length)
    {x : α} (hx : x ∈ swapRemove l i) :
    ∃ (j : Nat) (hj : j < l.length), j ≠ i ∧ l.get ⟨j, hj⟩ = x := by
  obtain ⟨n, hn⟩ := List.mem_iff_getElem?.mp hx
  have hlen := swapRemove_length (l := l) hi
  have hnlt : n < l.length - 1 := by
    by_contra hcon
    rw [List.getElem?_eq_none_iff.mpr (by omega)] at hn
    cases hn
  rw [swapRemove_getElem? hi hnlt] at hn
  by_cases hni : n = i
  · rw [if_pos hni] at hn
    obtain ⟨h1, h2⟩ := List.getElem?_eq_some_iff.mp hn
    exact ⟨l.length - 1, h1, by omega, by rw [List.get_eq_getElem]; exact h2⟩
  · rw [if_neg hni] at hn
    obtain ⟨h1, h2⟩ := List.getElem?_eq_some_iff.mp hn
    exact ⟨n, h1, hni, by rw [List.get_eq_getElem]; exact h2⟩

theorem swapRemove_get_spec {α : Type} {l : List α} {i : Nat} (hi : i < l.length)
    (j : Nat) (hjd : j < (swapRemove l i).length) :
    ∃ (k : Nat) (hk : k < l.length),
      (swapRemove l i).get ⟨j, hjd⟩ = l.get ⟨k, hk⟩ ∧
      k = (if j = i then l.length - 1 else j) := by
  have hlen := swapRemove_length (l := l) hi
  have hjl : j < l.length - 1 := by omega
  have hget := swapRemove_getElem? hi hjl
  by_cases hji : j = i
  · rw [if_pos hji] at hget
    refine ⟨l.length - 1, by omega, ?_, by rw [if_pos hji]⟩
    rw [List.getElem?_eq_getElem (by omega : l.length - 1 < l.length)] at hget
    have := List.getElem?_eq_getElem hjd
    rw [this] at hget
    rw [List.get_eq_getElem, List.get_eq_getElem]
    exact Option.some_injective _ hget
  · rw [if_neg hji] at hget
    refine ⟨j, by omega, ?_, by rw [if_neg hji]⟩
    rw [List.getElem?_eq_getElem (by omega : j < l.length)] at hget
    rw [List.getElem?_eq_getElem hjd] at hget
    rw [List.get_eq_getElem, List.get_eq_getElem]
    exact Option.some_injective _ hget

theorem findIdx?_some_spec {α : Type} {p : α → Bool} {l : List α} {i : Nat}
    (h : l.findIdx? p = some i) :
    ∃ hh : i < l.length, p (l.get ⟨i, hh⟩) = true := by
  obtain ⟨hlt, hfi⟩ := List.findIdx?_eq_some_iff_findIdx_eq.mp h
  refine ⟨hlt, ?_⟩
  rw [List.get_eq_getElem]
  subst hfi
  exact List.findIdx_getElem

/-! Helper lemmas about `create_net` and sample data for concrete witnesses. -/

theorem create_net_never_mac_in_use (tapRes : String → Option DevicesNetError)
    (tryRL : RateLimiterConfig → Except IoError RateLimiter)
    (cfg : NetworkInterfaceConfig) (s : String) :
    NetBuilder.create_net tapRes tryRL cfg ≠
      Except.error (NetworkInterfaceError.guestMacAddressInUse s) := by
  unfold NetBuilder.create_net
  split
  · simp
  · split
    · simp
    · split
      · simp
      · simp

theorem create_net_ok_fields {tapRes : String → Option DevicesNetError}
    {tryRL : RateLimiterConfig → Except IoError RateLimiter}
    {cfg : NetworkInterfaceConfig} {net : Net}
    (h : NetBuilder.create_net tapRes tryRL cfg = Except.ok net) :
    net.id = cfg.iface_id ∧ net.iface_name = cfg.host_dev_name ∧
      net.guest_mac = cfg.guest_mac := by
  unfold NetBuilder.create_net Net.new_with_tap at h
  cases htap : tapRes cfg.host_dev_name with
  | some e =>
      rw [htap] at h
      split at h
      · cases h
      · split at h
        · cases h
        · cases h
  | none =>
      rw [htap] at h
      split at h
      · cases h
      · split at h
        · cases h
        · injection h with h2
          subst h2
          exact ⟨rfl, rfl, rfl⟩

/-- The net device produced by the modelled factory on success, as a
function of the configuration and the resolved rate limiters. -/
def builtNet (cfg : NetworkInterfaceConfig) (rx tx : RateLimiter) : Net :=
  { id := cfg.iface_id, iface_name := cfg.host_dev_name, guest_mac := cfg.guest_mac,
    rx_rate_limiter := rx, tx_rate_limiter := tx }

/-- Sample MAC address used by the concrete witnesses. -/
def sampleMacA : MacAddr := { b0 := 1, b1 := 35, b2 := 69, b3 := 103, b4 := 137, b5 := 10 }

/-- Sample registered device used by the concrete witnesses. -/
def sampleNetA : Net :=
  { id := "id_1", iface_name := "dev1", guest_mac := some sampleMacA,
    rx_rate_limiter := RateLimiter.default, tx_rate_limiter := RateLimiter.default }

/-- Sample one-device registry used by the concrete witnesses. -/
def sampleBuilderA : NetBuilder := { net_devices := [sampleNetA] }

/-- Sample tap oracle that always succeeds. -/
def sampleTapOk : String → Option DevicesNetError := fun _ => none

/-- Sample rate-limiter conversion that always succeeds. -/
def sampleTryRL : RateLimiterConfig → Except IoError RateLimiter :=
  fun c => Except.ok { bandwidth := c.bandwidth, ops := c.ops }

/-- Sample rate-limiter conversion that always fails. -/
def sampleTryFail : RateLimiterConfig → Except IoError RateLimiter :=
  fun _ => Except.error { displayText := "Invalid argument" }

/-- Sample config that conflicts with `sampleNetA` on the MAC address under a
different interface id. -/
def sampleConflictCfg : NetworkInterfaceConfig :=
  { iface_id := "id_2", host_dev_name := "dev2", guest_mac := some sampleMacA,
    rx_rate_limiter := none, tx_rate_limiter := none }

/-- Sample rate-limiter descriptor (rejected by `sampleTryFail`). -/
def sampleBadRLC : RateLimiterConfig :=
  { bandwidth := some { size := 1000, refill_time := 100 }, ops := none }

/-- Sample rebuild request for the interface id of `sampleNetA`, carrying a
rate-limiter descriptor. -/
def sampleRebuildCfg : NetworkInterfaceConfig :=
  { iface_id := "id_1", host_dev_name := "dev1", guest_mac := some sampleMacA,
    rx_rate_limiter := some sampleBadRLC, tx_rate_limiter := none }

/-- Sample fresh single-interface request built into an empty registry. -/
def sampleCfg1 : NetworkInterfaceConfig :=
  { iface_id := "net1", host_dev_name := "tap0",
    guest_mac := some { b0 := 6, b1 := 0, b2 := 0, b3 := 0, b4 := 0, b5 := 1 },
    rx_rate_limiter := none, tx_rate_limiter := none }

/-- Sample same-id rebuild of `sampleCfg1` with a new host device name. -/
def sampleCfg2 : NetworkInterfaceConfig :=
  { iface_id := "net1", host_dev_name := "tap1",
    guest_mac := some { b0 := 6, b1 := 0, b2 := 0, b3 := 0, b4 := 0, b5 := 1 },
    rx_rate_limiter := none, tx_rate_limiter := none }

/-- Claim C10: the `unwrap` of the candidate MAC in the `GuestMacAddressInUse`
branch of `build` never panics: the conflict predicate fires only when the
candidate MAC is present, so `build` always returns a value (`Ok` or `Err`)
and never reaches the aborting branch modelled by `none`. -/
theorem build_never_panics (tapRes : String → Option DevicesNetError)
    (tryRL : RateLimiterConfig → Except IoError RateLimiter)
    (b : NetBuilder) (cfg : NetworkInterfaceConfig) :
    (NetBuilder.build tapRes tryRL b cfg).isSome = true := by
  unfold NetBuilder.build
  by_cases hc : b.net_devices.any (macConflict cfg) = true
  · rw [if_pos hc]
    obtain ⟨net, hmem, hconf⟩ := List.any_eq_true.mp hc
    unfold macConflict at hconf
    cases hmac : cfg.guest_mac with
    | none =>
        rw [hmac] at hconf
        simp at hconf
    | some m =>
        rfl
  · rw [if_neg hc]
    cases hcr : NetBuilder.create_net tapRes tryRL cfg <;> simp [hcr]

/-- Claim C5: a build request with an absent guest MAC never fails with
`GuestMacAddressInUse`: its conflict predicate is false against every
registered device (in particular against other MAC-less devices), and the
call never returns a MAC-in-use error. -/
theorem build_absent_mac_never_conflicts (tapRes : String → Option DevicesNetError)
    (tryRL : RateLimiterConfig → Except IoError RateLimiter)
    (b : NetBuilder) (cfg : NetworkInterfaceConfig)
    (hmac : cfg.guest_mac = none) :
    (∀ net : Net, macConflict cfg net = false) ∧
    ∀ (b2 : NetBuilder) (s : String),
      NetBuilder.build tapRes tryRL b cfg ≠
        some (b2, Except.error (NetworkInterfaceError.guestMacAddressInUse s)) := by
  have hconf : ∀ net : Net, macConflict cfg net = false := by
    intro net
    unfold macConflict
    rw [hmac]
    rfl
  refine ⟨hconf, ?_⟩
  intro b2 s heq
  unfold NetBuilder.build at heq
  have hany : ¬(b.net_devices.any (macConflict cfg) = true) := by
    intro h
    obtain ⟨net, _, hnet⟩ := List.any_eq_true.mp h
    rw [hconf net] at hnet
    cases hnet
  rw [if_neg hany] at heq
  cases hcr : NetBuilder.create_net tapRes tryRL cfg with
  | error e =>
      simp only [hcr] at heq
      injection heq with h3
      have h4 := congrArg Prod.snd h3
      rw [← hcr] at h4
      exact create_net_never_mac_in_use tapRes tryRL cfg s h4
  | ok n =>
      simp only [hcr] at heq
      injection heq with h3
      have h4 := congrArg Prod.snd h3
      simp at h4

/-- Sample MAC-less request used by the C5 witness. -/
def sampleNoMacCfg : NetworkInterfaceConfig :=
  { iface_id := "id_3", host_dev_name := "dev3", guest_mac := none,
    rx_rate_limiter := none, tx_rate_limiter := none }

/-- Witness for C5: a concrete MAC-less request against a concrete registry
neither fires the conflict predicate nor yields a MAC-in-use error. -/
theorem build_absent_mac_never_conflicts_witness :
    macConflict sampleNoMacCfg sampleNetA = false ∧
    NetBuilder.build sampleTapOk sampleTryRL sampleBuilderA sampleNoMacCfg ≠
      some (sampleBuilderA, Except.error
        (NetworkInterfaceError.guestMacAddressInUse "01:23:45:67:89:0a")) :=
  ⟨(build_absent_mac_never_conflicts sampleTapOk sampleTryRL sampleBuilderA
      sampleNoMacCfg rfl).1 sampleNetA,
   (build_absent_mac_never_conflicts sampleTapOk sampleTryRL sampleBuilderA
      sampleNoMacCfg rfl).2 sampleBuilderA "01:23:45:67:89:0a"⟩

/-- Claim C1: building a config whose present guest MAC is already held by a
registered device with a different interface id fails with
`GuestMacAddressInUse` carrying that MAC, and the registry is returned
exactly unchanged (nothing inserted, nothing removed). -/
theorem build_mac_conflict_fails_unchanged (tapRes : String → Option DevicesNetError)
    (tryRL : RateLimiterConfig → Except IoError RateLimiter)
    (b : NetBuilder) (cfg : NetworkInterfaceConfig) (m : MacAddr) (net : Net)
    (hm : cfg.guest_mac = some m) (hmem : net ∈ b.net_devices)
    (hmac : net.guest_mac = some m) (hid : net.id ≠ cfg.iface_id) :
    NetBuilder.build tapRes tryRL b cfg =
      some (b, Except.error
        (NetworkInterfaceError.guestMacAddressInUse m.toString)) := by
  have hconf : macConflict cfg net = true := by
    unfold macConflict
    rw [hm, hmac]
    simp
    exact fun h => hid h.symm
  have hany : b.net_devices.any (macConflict cfg) = true :=
    List.any_eq_true.mpr ⟨net, hmem, hconf⟩
  unfold NetBuilder.build
  rw [if_pos hany, hm]

/-- Witness for C1: a concrete conflicting request fails with the MAC-in-use
error and leaves the concrete registry unchanged. -/
theorem build_mac_conflict_fails_unchanged_witness :
    NetBuilder.build sampleTapOk sampleTryRL sampleBuilderA sampleConflictCfg =
      some (sampleBuilderA, Except.error
        (NetworkInterfaceError.guestMacAddressInUse sampleMacA.toString)) :=
  build_mac_conflict_fails_unchanged sampleTapOk sampleTryRL sampleBuilderA
    sampleConflictCfg sampleMacA sampleNetA rfl (by decide) rfl (by decide)

/-- Claim C6: the MAC-conflict check runs before removal and rate-limiter
resolution, so a config that both conflicts on the MAC with a different-id
device and carries an invalid rate-limiter descriptor fails with
`GuestMacAddressInUse` (registry unchanged), never with the rate-limiter
error. -/
theorem build_mac_conflict_priority (tapRes : String → Option DevicesNetError)
    (tryRL : RateLimiterConfig → Except IoError RateLimiter)
    (b : NetBuilder) (cfg : NetworkInterfaceConfig) (m : MacAddr) (net : Net)
    (rlc : RateLimiterConfig) (ioe : IoError)
    (hm : cfg.guest_mac = some m) (hmem : net ∈ b.net_devices)
    (hmac : net.guest_mac = some m) (hid : net.id ≠ cfg.iface_id)
    (hrx : cfg.rx_rate_limiter = some rlc)
    (hbad : tryRL rlc = Except.error ioe) :
    NetBuilder.build tapRes tryRL b cfg =
      some (b, Except.error
        (NetworkInterfaceError.guestMacAddressInUse m.toString)) ∧
    ∀ (b2 : NetBuilder) (e : IoError),
      NetBuilder.build tapRes tryRL b cfg ≠
        some (b2, Except.error (NetworkInterfaceError.createRateLimiter e)) := by
  have h1 := build_mac_conflict_fails_unchanged tapRes tryRL b cfg m net hm hmem hmac hid
  refine ⟨h1, ?_⟩
  intro b2 e heq
  rw [h1] at heq
  injection heq with h3
  have h4 := congrArg Prod.snd h3
  simp at h4

/-- Witness for C6: a concrete request with both a MAC conflict and a
rate-limiter descriptor rejected by the conversion oracle fails with the
MAC-in-use error, not the rate-limiter error. -/
theorem build_mac_conflict_priority_witness :
    NetBuilder.build sampleTapOk sampleTryFail sampleBuilderA
      { sampleConflictCfg with rx_rate_limiter := some sampleBadRLC } =
      some (sampleBuilderA, Except.error
        (NetworkInterfaceError.guestMacAddressInUse sampleMacA.toString)) ∧
    NetBuilder.build sampleTapOk sampleTryFail sampleBuilderA
      { sampleConflictCfg with rx_rate_limiter := some sampleBadRLC } ≠
      some (sampleBuilderA, Except.error (NetworkInterfaceError.createRateLimiter
        { displayText := "Invalid argument" })) := by
  have h := build_mac_conflict_priority sampleTapOk sampleTryFail sampleBuilderA
    { sampleConflictCfg with rx_rate_limiter := some sampleBadRLC }
    sampleMacA sampleNetA sampleBadRLC { displayText := "Invalid argument" }
    rfl (by decide) rfl (by decide) rfl rfl
  exact ⟨h.1, h.2 sampleBuilderA { displayText := "Invalid argument" }⟩

/-- Shared helper: when the conflict scan is false, `build` never returns a
`GuestMacAddressInUse` error (the only other error source is `create_net`,
which never produces that variant). -/
theorem build_no_conflict_never_mac_error (tapRes : String → Option DevicesNetError)
    (tryRL : RateLimiterConfig → Except IoError RateLimiter)
    (b : NetBuilder) (cfg : NetworkInterfaceConfig)
    (hany : b.net_devices.any (macConflict cfg) = false) :
    ∀ (b2 : NetBuilder) (s : String),
      NetBuilder.build tapRes tryRL b cfg ≠
        some (b2, Except.error (NetworkInterfaceError.guestMacAddressInUse s)) := by
  intro b2 s heq
  unfold NetBuilder.build at heq
  rw [if_neg (by simp [hany])] at heq
  cases hcr : NetBuilder.create_net tapRes tryRL cfg with
  | error e =>
      simp only [hcr] at heq
      injection heq with h3
      have h4 := congrArg Prod.snd h3
      rw [← hcr] at h4
      exact create_net_never_mac_in_use tapRes tryRL cfg s h4
  | ok n =>
      simp only [hcr] at heq
      injection heq with h3
      have h4 := congrArg Prod.snd h3
      simp at h4

/-- Claim C2: under the at-most-one-device-per-id invariant, a build call
that fails at the rate-limiter or device-construction step has already
removed any old device with the requested interface id, and there is no
rollback: after the failed call no device with that id remains. -/
theorem build_construction_failure_drops_old (tapRes : String → Option DevicesNetError)
    (tryRL : RateLimiterConfig → Except IoError RateLimiter)
    (b : NetBuilder) (cfg : NetworkInterfaceConfig) (b2 : NetBuilder)
    (e : NetworkInterfaceError)
    (huniq : NetBuilder.uniqueIds b)
    (hbuild : NetBuilder.build tapRes tryRL b cfg = some (b2, Except.error e))
    (hshape : (∃ de, e = NetworkInterfaceError.createNetworkDevice de) ∨
              ∃ ioe, e = NetworkInterfaceError.createRateLimiter ioe) :
    b2.net_devices.all (fun net => net.id != cfg.iface_id) = true := by
  rcases hshape with ⟨de, rfl⟩ | ⟨ioe, rfl⟩ <;>
  · unfold NetBuilder.build at hbuild
    by_cases hc : b.net_devices.any (macConflict cfg) = true
    · rw [if_pos hc] at hbuild
      cases hmac : cfg.guest_mac with
      | none => rw [hmac] at hbuild; cases hbuild
      | some m =>
          rw [hmac] at hbuild
          injection hbuild with h3
          have h4 := congrArg Prod.snd h3
          simp at h4
    · rw [if_neg hc] at hbuild
      cases hcr : NetBuilder.create_net tapRes tryRL cfg with
      | ok n =>
          simp only [hcr] at hbuild
          injection hbuild with h3
          have h4 := congrArg Prod.snd h3
          simp at h4
      | error e2 =>
          simp only [hcr] at hbuild
          injection hbuild with h3
          have hb2 := congrArg Prod.fst h3
          cases hidx : b.net_devices.findIdx? (fun net => net.id == cfg.iface_id) with
          | none =>
              have hnone := List.findIdx?_eq_none_iff.mp hidx
              simp only [hidx] at hb2
              rw [← hb2, List.all_eq_true]
              intro x hx
              have := hnone x hx
              simp only [bne, this, Bool.not_false]
          | some i =>
              obtain ⟨hilt, hpi⟩ := findIdx?_some_spec hidx
              simp only [hidx] at hb2
              rw [← hb2, List.all_eq_true]
              intro x hx
              obtain ⟨j, hj, hji, hjx⟩ := mem_swapRemove hilt hx
              rw [bne_iff_ne]
              intro hxid
              have hiid : (b.net_devices.get ⟨i, hilt⟩).id = cfg.iface_id :=
                beq_iff_eq.mp hpi
              have : j = i := by
                apply huniq j i hj hilt
                rw [hjx, hxid, hiid]
              exact hji this

/-- Witness for C2: rebuilding the concrete registry's only interface with a
config whose rate-limiter descriptor is rejected leaves a registry with no
device for that id. -/
theorem build_construction_failure_drops_old_witness :
    (NetBuilder.mk []).net_devices.all (fun net => net.id != "id_1") = true :=
  build_construction_failure_drops_old sampleTapOk sampleTryFail sampleBuilderA
    sampleRebuildCfg (NetBuilder.mk [])
    (NetworkInterfaceError.createRateLimiter { displayText := "Invalid argument" })
    (by intro j k hj hk h; simp [sampleBuilderA] at hj hk; omega)
    (by rfl)
    (Or.inr ⟨{ displayText := "Invalid argument" }, rfl⟩)

/-- Claim C4: under the registry's MAC-uniqueness invariant, a config whose
guest MAC equals the MAC of the registered device with the same interface id
never fires the MAC-conflict check, and the build call never fails with
`GuestMacAddressInUse`, regardless of any other fields. -/
theorem build_self_mac_never_in_use (tapRes : String → Option DevicesNetError)
    (tryRL : RateLimiterConfig → Except IoError RateLimiter)
    (b : NetBuilder) (cfg : NetworkInterfaceConfig) (net : Net)
    (huniq : NetBuilder.uniqueMacs b)
    (hmem : net ∈ b.net_devices) (hid : net.id = cfg.iface_id)
    (hmac : net.guest_mac = cfg.guest_mac) :
    b.net_devices.any (macConflict cfg) = false ∧
    ∀ (b2 : NetBuilder) (s : String),
      NetBuilder.build tapRes tryRL b cfg ≠
        some (b2, Except.error (NetworkInterfaceError.guestMacAddressInUse s)) := by
  have hany : b.net_devices.any (macConflict cfg) = false := by
    rw [Bool.eq_false_iff]
    intro hcon
    obtain ⟨net2, hmem2, hconf2⟩ := List.any_eq_true.mp hcon
    unfold macConflict at hconf2
    rw [Bool.and_eq_true, Bool.and_eq_true] at hconf2
    obtain ⟨⟨hsome, hbeq⟩, hbne⟩ := hconf2
    obtain ⟨m, hm⟩ := Option.isSome_iff_exists.mp hsome
    rw [hm] at hbeq
    have hmac2 : net2.guest_mac = some m := (beq_iff_eq.mp hbeq).symm
    have hmacself : net.guest_mac = some m := by rw [hmac, hm]
    obtain ⟨j, hj, hjx⟩ := List.getElem_of_mem hmem
    obtain ⟨k, hk, hkx⟩ := List.getElem_of_mem hmem2
    have hjk : j = k := by
      apply huniq j k hj hk m
      · rw [List.get_eq_getElem, hjx]
        exact hmacself
      · rw [List.get_eq_getElem, hkx]
        exact hmac2
    subst hjk
    have hnets : net = net2 := by
      rw [← hjx]
      exact hkx
    rw [← hnets] at hbne
    exact (bne_iff_ne.mp hbne) hid.symm
  exact ⟨hany, build_no_conflict_never_mac_error tapRes tryRL b cfg hany⟩

/-- Witness for C4: rebuilding the concrete device's interface id with its
own current MAC does not fire the conflict check and yields no MAC-in-use
error. -/
theorem build_self_mac_never_in_use_witness :
    sampleBuilderA.net_devices.any (macConflict sampleRebuildCfg) = false ∧
    NetBuilder.build sampleTapOk sampleTryRL sampleBuilderA sampleRebuildCfg ≠
      some (sampleBuilderA, Except.error
        (NetworkInterfaceError.guestMacAddressInUse sampleMacA.toString)) := by
  have h := build_self_mac_never_in_use sampleTapOk sampleTryRL sampleBuilderA
    sampleRebuildCfg sampleNetA
    (by intro j k hj hk m h1 h2; simp [sampleBuilderA] at hj hk; omega)
    (by decide) rfl rfl
  exact ⟨h.1, h.2 sampleBuilderA sampleMacA.toString⟩

/-- Claim C7: a present rate-limiter descriptor that fails to construct makes
`create_net` fail with `CreateRateLimiter` (and `build`, absent a MAC
conflict, propagates that error), while an absent descriptor constructs the
device with the default unlimited limiter for that direction. -/
theorem create_net_rate_limiter_semantics (tapRes : String → Option DevicesNetError)
    (tryRL : RateLimiterConfig → Except IoError RateLimiter)
    (cfg : NetworkInterfaceConfig) :
    (∀ rlc ioe, cfg.rx_rate_limiter = some rlc → tryRL rlc = Except.error ioe →
       NetBuilder.create_net tapRes tryRL cfg =
         Except.error (NetworkInterfaceError.createRateLimiter ioe)) ∧
    (∀ rxv rlc ioe, optTranspose (cfg.rx_rate_limiter.map tryRL) = Except.ok rxv →
       cfg.tx_rate_limiter = some rlc → tryRL rlc = Except.error ioe →
       NetBuilder.create_net tapRes tryRL cfg =
         Except.error (NetworkInterfaceError.createRateLimiter ioe)) ∧
    (∀ rlc ioe (b : NetBuilder), b.net_devices.any (macConflict cfg) = false →
       cfg.rx_rate_limiter = some rlc → tryRL rlc = Except.error ioe →
       NetBuilder.build tapRes tryRL b cfg =
         some (NetBuilder.mk
           (match b.net_devices.findIdx? (fun net => net.id == cfg.iface_id) with
             | some index => swapRemove b.net_devices index
             | none => b.net_devices),
           Except.error (NetworkInterfaceError.createRateLimiter ioe))) ∧
    (∀ txv, cfg.rx_rate_limiter = none →
       optTranspose (cfg.tx_rate_limiter.map tryRL) = Except.ok txv →
       tapRes cfg.host_dev_name = none →
       NetBuilder.create_net tapRes tryRL cfg =
         Except.ok (builtNet cfg RateLimiter.default (txv.getD RateLimiter.default))) ∧
    (∀ rxv, optTranspose (cfg.rx_rate_limiter.map tryRL) = Except.ok rxv →
       cfg.tx_rate_limiter = none →
       tapRes cfg.host_dev_name = none →
       NetBuilder.create_net tapRes tryRL cfg =
         Except.ok (builtNet cfg (rxv.getD RateLimiter.default) RateLimiter.default)) := by
  have hpart1 : ∀ rlc ioe, cfg.rx_rate_limiter = some rlc →
      tryRL rlc = Except.error ioe →
      NetBuilder.create_net tapRes tryRL cfg =
        Except.error (NetworkInterfaceError.createRateLimiter ioe) := by
    intro rlc ioe hrx hbad
    simp [NetBuilder.create_net, hrx, hbad, optTranspose]
  refine ⟨hpart1, ?_, ?_, ?_, ?_⟩
  · intro rxv rlc ioe hrxok htx hbad
    unfold NetBuilder.create_net
    rw [hrxok]
    simp [htx, hbad, optTranspose]
  · intro rlc ioe b hany hrx hbad
    unfold NetBuilder.build
    rw [if_neg (by simp [hany])]
    have hc := hpart1 rlc ioe hrx hbad
    simp [hc]
  · intro txv hrx htxok htap
    unfold NetBuilder.create_net
    rw [hrx, htxok]
    simp [Net.new_with_tap, builtNet, htap, optTranspose]
  · intro rxv hrxok htx htap
    unfold NetBuilder.create_net
    rw [hrxok, htx]
    simp [Net.new_with_tap, builtNet, htap, optTranspose]

/-- Witness for C7 at concrete configs and oracles: a failing rx descriptor
yields the rate-limiter error through `create_net`, and absent descriptors
yield the device with the default limiters. -/
theorem create_net_rate_limiter_semantics_witness :
    NetBuilder.create_net sampleTapOk sampleTryFail sampleRebuildCfg =
      Except.error (NetworkInterfaceError.createRateLimiter
        { displayText := "Invalid argument" }) ∧
    NetBuilder.create_net sampleTapOk sampleTryRL sampleCfg1 =
      Except.ok (builtNet sampleCfg1 RateLimiter.default RateLimiter.default) := by
  constructor
  · exact (create_net_rate_limiter_semantics sampleTapOk sampleTryFail
      sampleRebuildCfg).1 sampleBadRLC { displayText := "Invalid argument" } rfl rfl
  · exact (create_net_rate_limiter_semantics sampleTapOk sampleTryRL
      sampleCfg1).2.2.2.1 none rfl rfl rfl

/-- Claim C8: building a single interface with absent limiter descriptors
into an empty registry and enumerating configurations yields exactly one
entry equal to the original configuration, with the default limiters
represented as absent in the snapshot. -/
theorem build_snapshot_round_trip (tapRes : String → Option DevicesNetError)
    (tryRL : RateLimiterConfig → Except IoError RateLimiter)
    (cfg : NetworkInterfaceConfig)
    (hrx : cfg.rx_rate_limiter = none) (htx : cfg.tx_rate_limiter = none)
    (htap : tapRes cfg.host_dev_name = none) :
    NetBuilder.build tapRes tryRL NetBuilder.new cfg =
      some (NetBuilder.mk [builtNet cfg RateLimiter.default RateLimiter.default],
        Except.ok (builtNet cfg RateLimiter.default RateLimiter.default)) ∧
    (NetBuilder.mk [builtNet cfg RateLimiter.default RateLimiter.default]).configs =
      [cfg] := by
  have hok : NetBuilder.create_net tapRes tryRL cfg =
      Except.ok (builtNet cfg RateLimiter.default RateLimiter.default) := by
    simp [NetBuilder.create_net, Net.new_with_tap, builtNet, hrx, htx, htap,
      optTranspose]
  constructor
  · unfold NetBuilder.build
    rw [if_neg (by simp [NetBuilder.new, macConflict])]
    simp [NetBuilder.new, hok]
  · unfold NetBuilder.configs NetworkInterfaceConfig.ofNet builtNet
    simp [RateLimiterConfig.ofRateLimiter, RateLimiterConfig.into_option,
      RateLimiter.default]
    cases cfg
    simp_all

/-- Witness for C8: the concrete single-interface request round-trips
through `build` and `configs`. -/
theorem build_snapshot_round_trip_witness :
    NetBuilder.build sampleTapOk sampleTryRL NetBuilder.new sampleCfg1 =
      some (NetBuilder.mk [builtNet sampleCfg1 RateLimiter.default RateLimiter.default],
        Except.ok (builtNet sampleCfg1 RateLimiter.default RateLimiter.default)) ∧
    (NetBuilder.mk [builtNet sampleCfg1 RateLimiter.default RateLimiter.default]).configs =
      [sampleCfg1] :=
  build_snapshot_round_trip sampleTapOk sampleTryRL sampleCfg1 rfl rfl rfl

/-- Counterexample to claim C9 as stated: the `CreateNetworkDevice` display
arm embeds the collaborator's free text verbatim, so a double-quote in the
inner debug rendering survives into the displayed message. -/
theorem display_quote_survives_counterexample :
    (NetworkInterfaceError.display
      (NetworkInterfaceError.createNetworkDevice
        { debugText := "TapOpen(IoctlError(\"Device or resource busy\"))" })).data.any
      (fun c => c == quoteChar) = true := by
  decide

/-- Claim C9 amended: only the `OpenTap` display arm neutralizes quote
characters: for every tap error text, the displayed `OpenTap` message
contains no raw double-quote character; the other variants embed the inner
cause verbatim. -/
theorem display_openTap_strips_quotes (s : String) :
    (NetworkInterfaceError.display
      (NetworkInterfaceError.openTap { debugText := s })).data.all
      (fun c => c != quoteChar) = true := by
  unfold NetworkInterfaceError.display
  rw [String.data_append, List.all_append, Bool.and_eq_true]
  constructor
  · decide
  · rw [List.all_eq_true]
    intro c hc
    unfold stripQuotes at hc
    exact (List.mem_filter.mp hc).2

/-! Helper lemmas for the unique-id invariant (claim C3). -/

theorem get_append_single {α : Type} (l : List α) (a : α) (j : Nat)
    (hj : j < (l ++ [a]).length) :
    (l ++ [a]).get ⟨j, hj⟩ = if h : j < l.length then l.get ⟨j, h⟩ else a := by
  by_cases h : j < l.length
  · rw [dif_pos h, List.get_eq_getElem, List.get_eq_getElem,
      List.getElem_append_left h]
  · rw [dif_neg h]
    have hj2 : j = l.length := by
      rw [List.length_append, List.length_singleton] at hj
      omega
    subst hj2
    rw [List.get_eq_getElem, List.getElem_append_right (Nat.le_refl _)]
    simp

theorem idsUnique_swapRemove {l : List Net} {i : Nat} (hi : i < l.length)
    (hl : idsUnique l) : idsUnique (swapRemove l i) := by
  intro j k hjd hkd heq
  have hlen := swapRemove_length (l := l) hi
  have hjl : j < l.length - 1 := by omega
  have hkl : k < l.length - 1 := by omega
  obtain ⟨kj, hkj, hjeq, hjdef⟩ := swapRemove_get_spec hi j hjd
  obtain ⟨kk, hkk, hkeq, hkdef⟩ := swapRemove_get_spec hi k hkd
  rw [hjeq, hkeq] at heq
  have hkjkk : kj = kk := hl kj kk hkj hkk heq
  by_cases hji : j = i <;> by_cases hki : k = i
  · omega
  · rw [if_pos hji] at hjdef
    rw [if_neg hki] at hkdef
    omega
  · rw [if_neg hji] at hjdef
    rw [if_pos hki] at hkdef
    omega
  · rw [if_neg hji] at hjdef
    rw [if_neg hki] at hkdef
    omega

theorem swapRemove_no_id {l : List Net} {i : Nat} (hi : i < l.length)
    (hl : idsUnique l) {s : String} (hs : (l.get ⟨i, hi⟩).id = s) :
    ∀ (j : Nat) (hjd : j < (swapRemove l i).length),
      ((swapRemove l i).get ⟨j, hjd⟩).id ≠ s := by
  intro j hjd heq
  have hlen := swapRemove_length (l := l) hi
  have hjl : j < l.length - 1 := by omega
  obtain ⟨kj, hkj, hjeq, hjdef⟩ := swapRemove_get_spec hi j hjd
  rw [hjeq] at heq
  rw [← hs] at heq
  have hkji : kj = i := hl kj i hkj hi heq
  by_cases hji : j = i
  · rw [if_pos hji] at hjdef
    omega
  · rw [if_neg hji] at hjdef
    omega

theorem idsUnique_append_single {l : List Net} {n : Net}
    (hl : idsUnique l)
    (hn : ∀ (j : Nat) (hj : j < l.length), (l.get ⟨j, hj⟩).id ≠ n.id) :
    idsUnique (l ++ [n]) := by
  intro j k hj hk heq
  rw [get_append_single, get_append_single] at heq
  have hjb : j < l.length + 1 := by
    rw [List.length_append, List.length_singleton] at hj
    omega
  have hkb : k < l.length + 1 := by
    rw [List.length_append, List.length_singleton] at hk
    omega
  by_cases hjl : j < l.length <;> by_cases hkl : k < l.length
  · rw [dif_pos hjl, dif_pos hkl] at heq
    exact hl j k hjl hkl heq
  · rw [dif_pos hjl, dif_neg hkl] at heq
    exact absurd heq (hn j hjl)
  · rw [dif_neg hjl, dif_pos hkl] at heq
    exact absurd heq.symm (hn k hkl)
  · omega

/-- Shared helper: `create_net` with absent limiter descriptors and a
succeeding tap oracle yields the device with default limiters. -/
theorem create_net_defaults (tapRes : String → Option DevicesNetError)
    (tryRL : RateLimiterConfig → Except IoError RateLimiter)
    (cfg : NetworkInterfaceConfig)
    (hrx : cfg.rx_rate_limiter = none) (htx : cfg.tx_rate_limiter = none)
    (htap : tapRes cfg.host_dev_name = none) :
    NetBuilder.create_net tapRes tryRL cfg =
      Except.ok (builtNet cfg RateLimiter.default RateLimiter.default) := by
  simp [NetBuilder.create_net, Net.new_with_tap, builtNet, hrx, htx, htap,
    optTranspose]

/-- Claim C3: a successful `build` preserves the at-most-one-device-per-id
invariant, and rebuilding the same interface id with an unchanged MAC and a
new host device name succeeds and leaves exactly one entry for that id,
whose snapshot shows the new device's MAC and host device name. -/
theorem build_unique_ids_and_identity_replace :
    (∀ (tapRes : String → Option DevicesNetError)
       (tryRL : RateLimiterConfig → Except IoError RateLimiter)
       (b b2 : NetBuilder) (cfg : NetworkInterfaceConfig) (net : Net),
       NetBuilder.uniqueIds b →
       NetBuilder.build tapRes tryRL b cfg = some (b2, Except.ok net) →
       NetBuilder.uniqueIds b2) ∧
    (∀ (tapRes : String → Option DevicesNetError)
       (tryRL : RateLimiterConfig → Except IoError RateLimiter)
       (cfg1 cfg2 : NetworkInterfaceConfig),
       cfg2.iface_id = cfg1.iface_id →
       cfg2.guest_mac = cfg1.guest_mac →
       cfg1.rx_rate_limiter = none → cfg1.tx_rate_limiter = none →
       cfg2.rx_rate_limiter = none → cfg2.tx_rate_limiter = none →
       tapRes cfg1.host_dev_name = none → tapRes cfg2.host_dev_name = none →
       NetBuilder.build tapRes tryRL NetBuilder.new cfg1 =
         some (NetBuilder.mk [builtNet cfg1 RateLimiter.default RateLimiter.default],
           Except.ok (builtNet cfg1 RateLimiter.default RateLimiter.default)) ∧
       NetBuilder.build tapRes tryRL
           (NetBuilder.mk [builtNet cfg1 RateLimiter.default RateLimiter.default])
           cfg2 =
         some (NetBuilder.mk [builtNet cfg2 RateLimiter.default RateLimiter.default],
           Except.ok (builtNet cfg2 RateLimiter.default RateLimiter.default)) ∧
       (NetBuilder.mk
           [builtNet cfg2 RateLimiter.default RateLimiter.default]).configs =
         [{ iface_id := cfg2.iface_id, host_dev_name := cfg2.host_dev_name,
            guest_mac := cfg2.guest_mac, rx_rate_limiter := none,
            tx_rate_limiter := none }]) := by
  constructor
  · intro tapRes tryRL b b2 cfg net huniq hbuild
    unfold NetBuilder.build at hbuild
    by_cases hc : b.net_devices.any (macConflict cfg) = true
    · rw [if_pos hc] at hbuild
      cases hmac : cfg.guest_mac with
      | none => rw [hmac] at hbuild; cases hbuild
      | some m =>
          rw [hmac] at hbuild
          injection hbuild with h3
          have h4 := congrArg Prod.snd h3
          simp at h4
    · rw [if_neg hc] at hbuild
      cases hcr : NetBuilder.create_net tapRes tryRL cfg with
      | error e =>
          simp only [hcr] at hbuild
          injection hbuild with h3
          have h4 := congrArg Prod.snd h3
          simp at h4
      | ok n =>
          simp only [hcr] at hbuild
          injection hbuild with h3
          have hb2 := congrArg Prod.fst h3
          have hnid : n.id = cfg.iface_id := (create_net_ok_fields hcr).1
          cases hidx : b.net_devices.findIdx? (fun net2 => net2.id == cfg.iface_id) with
          | none =>
              have hnone := List.findIdx?_eq_none_iff.mp hidx
              simp only [hidx] at hb2
              rw [← hb2]
              show idsUnique (b.net_devices ++ [n])
              refine idsUnique_append_single huniq ?_
              intro j hj heq
              have hfalse := hnone (b.net_devices.get ⟨j, hj⟩) (List.get_mem _ _ _)
              rw [hnid] at heq
              exact (beq_eq_false_iff_ne.mp hfalse) heq
          | some i =>
              obtain ⟨hilt, hpi⟩ := findIdx?_some_spec hidx
              simp only [hidx] at hb2
              rw [← hb2]
              show idsUnique (swapRemove b.net_devices i ++ [n])
              refine idsUnique_append_single (idsUnique_swapRemove hilt huniq) ?_
              intro j hj heq
              rw [hnid] at heq
              exact swapRemove_no_id hilt huniq (beq_iff_eq.mp hpi) j hj heq
  · intro tapRes tryRL cfg1 cfg2 hid hmac hrx1 htx1 hrx2 htx2 htap1 htap2
    have hok1 := create_net_defaults tapRes tryRL cfg1 hrx1 htx1 htap1
    have hok2 := create_net_defaults tapRes tryRL cfg2 hrx2 htx2 htap2
    have hb1 : NetBuilder.build tapRes tryRL NetBuilder.new cfg1 =
        some (NetBuilder.mk [builtNet cfg1 RateLimiter.default RateLimiter.default],
          Except.ok (builtNet cfg1 RateLimiter.default RateLimiter.default)) := by
      unfold NetBuilder.build
      rw [if_neg (by simp [NetBuilder.new, macConflict])]
      simp [NetBuilder.new, hok1]
    refine ⟨hb1, ?_, ?_⟩
    · have hany2 : ¬((NetBuilder.mk [builtNet cfg1 RateLimiter.default
          RateLimiter.default]).net_devices.any (macConflict cfg2) = true) := by
        simp [macConflict, builtNet, hid]
      have hfi : List.findIdx? (fun net => net.id == cfg2.iface_id)
          [builtNet cfg1 RateLimiter.default RateLimiter.default] = some 0 := by
        rw [List.findIdx?_cons]
        rw [if_pos (by simp [builtNet, hid])]
      unfold NetBuilder.build
      rw [if_neg hany2]
      simp only [hok2, hfi]
      simp [swapRemove]
    · simp [NetBuilder.configs, NetworkInterfaceConfig.ofNet, builtNet,
        RateLimiterConfig.ofRateLimiter, RateLimiterConfig.into_option,
        RateLimiter.default]

/-- Witness for C3: concrete successive builds of the same interface id with
an unchanged MAC and a new host device name leave one uniquely-identified
entry showing the new name. -/
theorem build_unique_ids_and_identity_replace_witness :
    NetBuilder.uniqueIds
      (NetBuilder.mk [builtNet sampleCfg2 RateLimiter.default RateLimiter.default]) ∧
    NetBuilder.build sampleTapOk sampleTryRL
        (NetBuilder.mk [builtNet sampleCfg1 RateLimiter.default RateLimiter.default])
        sampleCfg2 =
      some (NetBuilder.mk [builtNet sampleCfg2 RateLimiter.default RateLimiter.default],
        Except.ok (builtNet sampleCfg2 RateLimiter.default RateLimiter.default)) ∧
    (NetBuilder.mk
        [builtNet sampleCfg2 RateLimiter.default RateLimiter.default]).configs =
      [{ iface_id := sampleCfg2.iface_id, host_dev_name := sampleCfg2.host_dev_name,
         guest_mac := sampleCfg2.guest_mac, rx_rate_limiter := none,
         tx_rate_limiter := none }] := by
  have h2 := build_unique_ids_and_identity_replace.2 sampleTapOk sampleTryRL
    sampleCfg1 sampleCfg2 rfl rfl rfl rfl rfl rfl rfl rfl
  refine ⟨?_, h2.2.1, h2.2.2⟩
  exact build_unique_ids_and_identity_replace.1 sampleTapOk sampleTryRL
    (NetBuilder.mk [builtNet sampleCfg1 RateLimiter.default RateLimiter.default])
    (NetBuilder.mk [builtNet sampleCfg2 RateLimiter.default RateLimiter.default])
    sampleCfg2 (builtNet sampleCfg2 RateLimiter.default RateLimiter.default)
    (by intro j k hj hk he; simp at hj hk; omega)
    h2.2.1
